import Mathlib

/-!
Verification development for the testnet automation scripts
(auto.py activity catalog and smart.py decision engine).

The Python source is shallowly embedded: chain interactions are
represented by explicit parameters (query results, randomness draws)
and by lists of emitted chain actions, machine integers by Nat, and
Python return values by an explicit result type.
-/

/-- Chain interaction performed by an activity: a read call
(balanceOf, allowance, hasRole, quote, nonce) or a signed and
broadcast transaction with its method name and numeric arguments. -/
inductive ChainAction
  | readCall (method : String)
  | sendTx (method : String) (args : List Nat)
deriving DecidableEq

/-- Value returned by an activity to Python callers: a transaction
hash string, an explicit skip sentinel string, or Python None. -/
inductive PyResult
  | txHash (h : String)
  | skippedMsg (reason : String)
  | noneVal
deriving DecidableEq

/-- Tests whether a Python activity result is a skip sentinel string. -/
def isSkipped : PyResult → Bool
  | .skippedMsg _ => true
  | _ => false

/-- Maximum representable uint256 value, written 2**256 - 1 in the
source (auto.py lines 298, 366, 594, 614, 911). -/
def maxUint256 : Nat := 2 ^ 256 - 1

/-- Allowance guard inlined identically in activity5_swap
(auto.py 295-312), activity6_add_liquidity (363-382),
activity11_limit_order and activity17_batch_operations: read the
current allowance; if it is below the required amount, submit one
approval of maxUint256, else do nothing. Result is the number of
approval transactions issued and the allowance after the call
confirms. -/
def ensureAllowance (allowance required : Nat) : Nat × Nat :=
  if allowance < required then (1, maxUint256) else (0, allowance)

/-- Swap submission of activity5_swap (auto.py 313-338), after the
allowance guard: the quote for 1 PathUSD (10^6 base units) is read;
only when it is positive is a swap submitted, with
min_out = quote * 99 // 100. When the quote is zero the function
falls through with no swap transaction and returns Python None,
the same value the exception handler returns. -/
def activity5_swap (allowance quote : Nat) (txh : String) :
    PyResult × List ChainAction :=
  let approveActs : List ChainAction :=
    if allowance < 1 * 10 ^ 6 then
      [.readCall "nonce", .sendTx "approve" [maxUint256]]
    else []
  let pre : List ChainAction :=
    .readCall "allowance" :: approveActs ++ [.readCall "quoteSwapExactAmountIn"]
  if 0 < quote then
    (.txHash txh,
     pre ++ [.readCall "nonce", .sendTx "swapExactAmountIn" [1 * 10 ^ 6, quote * 99 / 100]])
  else
    (.noneVal, pre)

/-- Return value of activity5_swap when its try block raises
(auto.py 336-338): Python None. -/
def activity5_onError : PyResult := .noneVal

/-- Counts swap transactions in an action trace. -/
def swapTxCount (acts : List ChainAction) : Nat :=
  acts.countP (fun a =>
    match a with
    | .sendTx "swapExactAmountIn" _ => true
    | _ => false)

/-- Swap submission of activity17_batch_operations (auto.py 927-952):
same minOut policy as activity5_swap, for 0.5 PathUSD. -/
def activity17_minOut (quote : Nat) : Option Nat :=
  if 0 < quote then some (quote * 99 / 100) else none

/-- The minOut actually attached to the swap submitted by
activity5_swap, if one is submitted. -/
def activity5_minOut (quote : Nat) : Option Nat :=
  if 0 < quote then some (quote * 99 / 100) else none

/-- Outcome of one RPC attempt inside activity2_faucet: success, an
error whose text matches one of the retryable patterns (timeout,
connection, refused, 502, 503, bad gateway, timed out), or any other
error. -/
inductive FaucetStep
  | ok
  | transientErr
  | terminalErr
deriving DecidableEq

/-- Fixed attempt cap of activity2_faucet (auto.py 187). -/
def faucetMaxRetries : Nat := 3

/-- Retry loop of activity2_faucet (auto.py 189-214). Argument
oracle gives the outcome of each attempt (0-based); the loop starts
at the given attempt with the given remaining fuel. Result is the
Python return value paired with the list of backoff sleeps actually
performed, in order. On a retryable error with attempts remaining
the code sleeps (attempt + 1) * 5 seconds and retries; otherwise it
returns None immediately. -/
def faucetLoop (oracle : Nat → FaucetStep) : Nat → Nat → Option String × List Nat
  | _, 0 => (none, [])
  | attempt, fuel + 1 =>
    match oracle attempt with
    | .ok => (some "faucet", [])
    | .transientErr =>
      if attempt < faucetMaxRetries - 1 then
        let rest := faucetLoop oracle (attempt + 1) fuel
        (rest.1, (attempt + 1) * 5 :: rest.2)
      else
        (none, [])
    | .terminalErr => (none, [])

/-- Entry point of activity2_faucet (auto.py 187-214). -/
def activity2_faucet (oracle : Nat → FaucetStep) : Option String × List Nat :=
  faucetLoop oracle 0 faucetMaxRetries

/-- Fixed burn amount and threshold of activity9_burn_tokens
(auto.py 517-518): 10 tokens in 6-decimal base units. -/
def burnThreshold : Nat := 10 * 10 ^ 6

/-- Mint amount of activity8_mint_tokens (auto.py 485). -/
def mintAmount : Nat := 1000 * 10 ^ 6

/-- Embedding of activity9_burn_tokens (auto.py 506-541). A null
token address returns Python None before any chain interaction;
otherwise the balance is read and a burn of exactly burnThreshold is
submitted when the balance is at least burnThreshold, else the
explicit skip sentinel string is returned with no transaction. -/
def activity9_burn_tokens (tokenAddress : Option String) (balance : Nat) (txh : String) :
    PyResult × List ChainAction :=
  match tokenAddress with
  | none => (.noneVal, [])
  | some _ =>
    if burnThreshold ≤ balance then
      (.txHash txh,
       [.readCall "balanceOf", .readCall "nonce", .sendTx "burn" [burnThreshold]])
    else
      (.skippedMsg "skipped: low balance", [.readCall "balanceOf"])

/-- Embedding of activity8_mint_tokens (auto.py 443-504). A null
token address returns Python None before any chain interaction.
Otherwise the ISSUER_ROLE is checked (hasRoleQ = none models the
hasRole call raising, which the code treats as needing the role), a
grantRole transaction is submitted when the role is absent, and the
mint of mintAmount is submitted. -/
def activity8_mint_tokens (tokenAddress : Option String) (hasRoleQ : Option Bool) (txh : String) :
    Option String × List ChainAction :=
  match tokenAddress with
  | none => (none, [])
  | some _ =>
    let needsRole :=
      match hasRoleQ with
      | some hasRole => !hasRole
      | none => true
    let grantActs : List ChainAction :=
      if needsRole then [.readCall "nonce", .sendTx "grantRole" []] else []
    (some txh,
     .readCall "hasRole" :: grantActs ++ [.readCall "nonce", .sendTx "mint" [mintAmount]])

/-- Embedding of activity13_grant_role (auto.py 743-774). A null
token address returns Python None before any chain interaction.
Otherwise PAUSE_ROLE possession is read; when absent a grantRole
transaction is submitted and its hash returned, when present the
function falls through and returns Python None with no transaction. -/
def activity13_grant_role (tokenAddress : Option String) (hasRole : Bool) (txh : String) :
    Option String × List ChainAction :=
  match tokenAddress with
  | none => (none, [])
  | some _ =>
    if hasRole then
      (none, [.readCall "hasRole"])
    else
      (some txh, [.readCall "hasRole", .readCall "nonce", .sendTx "grantRole" []])

/-- Minimum withdrawal of activity12_remove_liquidity
(auto.py 695): int(0.1 * 10**6) = 100000 base LP units. -/
def minWithdraw : Nat := 100000

/-- Observable outcome of activity12_remove_liquidity: its Python
return value, the LP balance of the selected pool if one was
selected, and the withdrawn amount if a burn transaction was
submitted. -/
structure RemoveLiqOutcome where
  result : PyResult
  selected : Option Nat
  submitted : Option Nat
deriving DecidableEq

/-- Embedding of activity12_remove_liquidity (auto.py 651-741).
Argument queries lists, per asset-pair combination in enumeration
order, the liquidityBalances query result (none when the pool read
raised and the pair is skipped). Pairs with a positive balance form
the candidate list; random.choice over it is modelled by index pick
taken modulo its length. Argument raw stands for the Python value
int(lp_balance * withdraw_percent) computed with the random 20-50
percent draw in floating point; it is left arbitrary here and the
code then clamps it as max(raw, minWithdraw) followed by
min(-, lp_balance). With no candidate pool the skip sentinel
"skipped: no lp" is returned, and with a selected balance below
minWithdraw the sentinel "skipped: low balance". -/
def activity12_remove_liquidity (queries : List (Option Nat)) (pick raw : Nat)
    (txh : String) : RemoveLiqOutcome :=
  let pools := (queries.filterMap id).filter (fun lp => 0 < lp)
  if pools.isEmpty then
    ⟨.skippedMsg "skipped: no lp", none, none⟩
  else
    let lp := pools.getD (pick % pools.length) 0
    if lp < minWithdraw then
      ⟨.skippedMsg "skipped: low balance", some lp, none⟩
    else
      ⟨.txHash txh, some lp, some (min (max raw minWithdraw) lp)⟩

/-- Embedding of activity4_create_stablecoin (auto.py 244-283),
reduced to its receipt-log parsing: each receipt log is given as the
result of attempting to decode it as a TokenCreated event (some
address on success, none when process_log raises and the loop moves
on). The first successfully decoded address is returned; with no
decodable log the function returns Python None. -/
def activity4_create_stablecoin (logs : List (Option String)) : Option String :=
  (logs.filterMap id).head?

/-- Observable outcome of the id-4 create-token step of the
per-wallet sweep in run_auto_mode: the value the activity body
returned, the value of the created_token variable after the step,
whether the [Bonus] mint/burn/grant-role sequence was invoked, and
whether the step ended in the TypeError caught by the per-activity
exception handler. -/
structure SweepOutcome where
  activityReturn : Option String
  createdToken : Option String
  bonusInvoked : Bool
  raisedTypeError : Bool
deriving DecidableEq

/-- Embedding of the create-token handling of run_auto_mode
(auto.py 1041-1102). The variable created_token is initialized to
None at line 1041. Line 1052 evaluates await on the result of the
lambda, which runs the synchronous activity4_create_stablecoin; its
plain str-or-None return value is not awaitable, so the await itself
raises TypeError after the activity body has run. The exception is
caught by the handler at line 1097 before created_token is assigned,
so the if/else at lines 1053-1081 — including the [Bonus]
mint/burn/grant-role block — is unreachable on every input: the
bonus sequence is never invoked and created_token keeps its None
initializer. -/
def sweepCreateToken (logs : List (Option String)) : SweepOutcome :=
  { activityReturn := activity4_create_stablecoin logs
    createdToken := none
    bonusInvoked := false
    raisedTypeError := true }

/-- Cached balances of a SmartWallet (smart.py 70-90, 105-108),
as Python floats embedded into the rationals; missing entries
default to 0 at the read sites via dict.get. -/
structure Balances where
  eth : ℚ
  pathUSD : ℚ
  alphaUSD : ℚ
  betaUSD : ℚ
deriving DecidableEq

/-- Underlying activity function attached to the choice returned by
SmartWallet.decide_next_action (smart.py 92-196). -/
inductive ActivityFn
  | faucet
  | createToken
  | swap
  | infinityName
  | addLiquidity
  | tip403Policy
  | analytics
  | mintOwn
  | burnOwn
  | deployContract
  | nftMint
  | sendDust
  | limitOrder
  | retrieverNft
  | batchOps
deriving DecidableEq

/-- One selected activity: display name plus the function it wraps. -/
structure Choice where
  name : String
  fn : ActivityFn
deriving DecidableEq

/-- Random draws consumed by one decide_next_action call, one field
per random.random() gate in source order, plus the indices used by
the two random.choice calls. -/
structure RandDraws where
  rCreate : ℚ
  rInfinity : ℚ
  rAddLiq : ℚ
  rTip403 : ℚ
  rAnalytics : ℚ
  rMintBurn : ℚ
  rIsMint : ℚ
  tokenPick : Nat
  fallbackPick : Nat

/-- Per-wallet state read by decide_next_action: the recovery flag
set after an insufficient-funds failure, the cached balances, the
session-created tokens (self.history) and the persisted created
tokens for this address (load_created_tokens). -/
structure AgentState where
  shouldRecoverFaucet : Bool
  balances : Balances
  createdTokens : List String
  savedTokens : List String
deriving DecidableEq

/-- Fallback option list of decide_next_action (smart.py 184-192). -/
def fallbackOptions : List Choice :=
  [⟨"Deploy Contract", .deployContract⟩,
   ⟨"NFT Mint", .nftMint⟩,
   ⟨"Send Dust", .sendDust⟩,
   ⟨"Limit Order", .limitOrder⟩,
   ⟨"Retriever NFT", .retrieverNft⟩,
   ⟨"Batch Operations", .batchOps⟩]

/-- Result of one decide_next_action call: the single selected
choice, the wallet state afterwards, and whether update_balances ran
during the call. -/
structure Decision where
  chosen : Choice
  stateAfter : AgentState
  refreshedBalances : Bool
deriving DecidableEq

/-- Embedding of SmartWallet.decide_next_action (smart.py 92-196).
The recovery branch fires first, before update_balances and every
priority rule, clearing the flag; otherwise balances are refreshed
(argument refresh models update_balances) and the ordered priority
rules run, falling back to a uniform choice among fallbackOptions.
The function is total: every call returns exactly one Choice. -/
def decide_next_action (s : AgentState) (refresh : Balances → Balances)
    (r : RandDraws) : Decision :=
  if s.shouldRecoverFaucet then
    { chosen := ⟨"Faucet Claim (Recovery)", .faucet⟩,
      stateAfter := { s with shouldRecoverFaucet := false },
      refreshedBalances := false }
  else
    let b := refresh s.balances
    let s1 : AgentState := { s with balances := b }
    if b.eth < 2 then
      ⟨⟨"Faucet Claim (Low Balance)", .faucet⟩, s1, true⟩
    else if r.rCreate < 15 / 100 then
      ⟨⟨"Deploy New Token", .createToken⟩, s1, true⟩
    else if b.pathUSD > 10 ∧ (b.alphaUSD < 5 ∨ b.betaUSD < 5) then
      ⟨⟨"Swap PathUSD -> Stable", .swap⟩, s1, true⟩
    else if b.pathUSD > 1000 ∧ r.rInfinity < 1 / 10 then
      ⟨⟨"Infinity Name Register", .infinityName⟩, s1, true⟩
    else if b.pathUSD > 5 ∧ b.alphaUSD > 5 ∧ r.rAddLiq < 3 / 10 then
      ⟨⟨"Add Liquidity", .addLiquidity⟩, s1, true⟩
    else if s1.savedTokens ≠ [] ∧ r.rTip403 < 1 / 10 then
      ⟨⟨"TIP-403 Policy", .tip403Policy⟩, s1, true⟩
    else if r.rAnalytics < 5 / 100 then
      ⟨⟨"Analytics & Stats", .analytics⟩, s1, true⟩
    else if s1.createdTokens ≠ [] ∧ r.rMintBurn < 4 / 10 then
      if r.rIsMint < 6 / 10 then
        ⟨⟨"Mint Own Token", .mintOwn⟩, s1, true⟩
      else
        ⟨⟨"Burn Own Token", .burnOwn⟩, s1, true⟩
    else
      ⟨fallbackOptions.getD (r.fallbackPick % fallbackOptions.length)
         ⟨"Deploy Contract", .deployContract⟩, s1, true⟩

/-- C2: decide_next_action is a total function, so every call
returns exactly one selected Choice; and whenever the recovery flag
set by an insufficient-funds failure is true, the selected activity
is the faucet claim, chosen without refreshing balances and before
every other rule, with the recovery flag cleared in the resulting
state. -/
theorem decide_next_action_recovery_first (s : AgentState)
    (refresh : Balances → Balances) (r : RandDraws)
    (h : s.shouldRecoverFaucet = true) :
    (decide_next_action s refresh r).chosen = ⟨"Faucet Claim (Recovery)", .faucet⟩ ∧
    (decide_next_action s refresh r).refreshedBalances = false ∧
    (decide_next_action s refresh r).stateAfter.shouldRecoverFaucet = false := by
  simp [decide_next_action, h]

/-- Sample balances used by concrete evaluations. -/
def demoBalances : Balances := ⟨1, 20, 1, 1⟩

/-- Sample random draws: every probability gate draws 1, so no
random-gated rule fires. -/
def demoDraws : RandDraws := ⟨1, 1, 1, 1, 1, 1, 1, 0, 0⟩

/-- Sample wallet state with the recovery flag set. -/
def demoRecoveryState : AgentState := ⟨true, demoBalances, [], []⟩

/-- Witness for the recovery-first theorem at a concrete state. -/
theorem decide_next_action_recovery_first_witness :
    (decide_next_action demoRecoveryState id demoDraws).chosen
      = ⟨"Faucet Claim (Recovery)", .faucet⟩ ∧
    (decide_next_action demoRecoveryState id demoDraws).refreshedBalances = false ∧
    (decide_next_action demoRecoveryState id demoDraws).stateAfter.shouldRecoverFaucet
      = false :=
  decide_next_action_recovery_first demoRecoveryState id demoDraws rfl

/-- C3: for every positive quote, activity5_swap submits the swap
with minOut = quote * 99 / 100 (floor division), activity17 uses the
same formula, and this minOut never exceeds the quote. -/
theorem swap_minOut_slippage_floor (allowance quote : Nat) (txh : String)
    (hq : 0 < quote) :
    ChainAction.sendTx "swapExactAmountIn" [1 * 10 ^ 6, quote * 99 / 100]
      ∈ (activity5_swap allowance quote txh).2 ∧
    activity5_minOut quote = some (quote * 99 / 100) ∧
    activity17_minOut quote = some (quote * 99 / 100) ∧
    quote * 99 / 100 ≤ quote := by
  refine ⟨?_, by simp [activity5_minOut, hq], by simp [activity17_minOut, hq], ?_⟩
  · simp [activity5_swap, hq]
  · calc quote * 99 / 100 ≤ quote * 100 / 100 :=
          Nat.div_le_div_right (by omega)
      _ = quote := Nat.mul_div_cancel quote (by norm_num)

/-- Witness for the slippage-floor theorem at quote = 250. -/
theorem swap_minOut_slippage_floor_witness :
    ChainAction.sendTx "swapExactAmountIn" [1 * 10 ^ 6, 250 * 99 / 100]
      ∈ (activity5_swap 0 250 "0xh").2 ∧
    activity5_minOut 250 = some (250 * 99 / 100) ∧
    activity17_minOut 250 = some (250 * 99 / 100) ∧
    250 * 99 / 100 ≤ 250 :=
  swap_minOut_slippage_floor 0 250 "0xh" (by norm_num)

/-- C4: the allowance guard issues no approval when the allowance
already covers the required amount, any approval it issues grants
maxUint256, and two consecutive invocations with the same required
amount issue at most one approval transaction in total. -/
theorem ensureAllowance_idempotent (a r : Nat) (hr : r ≤ maxUint256) :
    (r ≤ a → ensureAllowance a r = (0, a)) ∧
    (a < r → ensureAllowance a r = (1, maxUint256)) ∧
    (ensureAllowance a r).1 + (ensureAllowance (ensureAllowance a r).2 r).1 ≤ 1 := by
  have h2 : ¬ maxUint256 < r := Nat.not_lt.mpr hr
  by_cases h : a < r
  · simp [ensureAllowance, h, h2]
  · simp [ensureAllowance, h]

/-- Witness for allowance-guard idempotence at allowance 5 and
required amount 3. -/
theorem ensureAllowance_idempotent_witness :
    (3 ≤ 5 → ensureAllowance 5 3 = (0, 5)) ∧
    (5 < 3 → ensureAllowance 5 3 = (1, maxUint256)) ∧
    (ensureAllowance 5 3).1 + (ensureAllowance (ensureAllowance 5 3).2 3).1 ≤ 1 :=
  ensureAllowance_idempotent 5 3 (by norm_num [maxUint256])

/-- C10: invoked with a null token address, the mint, burn and
grant-role activities each return Python None immediately, with no
chain read and no transaction built, signed or broadcast. -/
theorem nullToken_activities_noop (hasRoleQ : Option Bool) (balance : Nat)
    (txh : String) (hasRole : Bool) :
    activity8_mint_tokens none hasRoleQ txh = (none, []) ∧
    activity9_burn_tokens none balance txh = (PyResult.noneVal, []) ∧
    activity13_grant_role none hasRole txh = (none, []) :=
  ⟨rfl, rfl, rfl⟩

/-- C8: with a known token, a balance below burnThreshold makes the
burn activity return the explicit skip sentinel (a value distinct
from the Python None failure result) after only the balance read,
submitting no transaction; a balance at or above the threshold
submits a burn of exactly burnThreshold. -/
theorem burn_threshold_policy (addr : String) (balance : Nat) (txh : String) :
    (balance < burnThreshold →
       activity9_burn_tokens (some addr) balance txh
         = (.skippedMsg "skipped: low balance", [.readCall "balanceOf"]) ∧
       isSkipped (activity9_burn_tokens (some addr) balance txh).1 = true ∧
       (activity9_burn_tokens (some addr) balance txh).1 ≠ PyResult.noneVal) ∧
    (burnThreshold ≤ balance →
       activity9_burn_tokens (some addr) balance txh
         = (.txHash txh,
            [.readCall "balanceOf", .readCall "nonce", .sendTx "burn" [burnThreshold]])) := by
  constructor
  · intro h
    have h2 : ¬ burnThreshold ≤ balance := Nat.not_le.mpr h
    simp [activity9_burn_tokens, h2, isSkipped]
  · intro h
    simp [activity9_burn_tokens, h]

/-- Witness for the burn-threshold theorem at balance 0. -/
theorem burn_threshold_policy_witness :
    activity9_burn_tokens (some "0xT") 0 "0xh"
      = (.skippedMsg "skipped: low balance", [.readCall "balanceOf"]) ∧
    isSkipped (activity9_burn_tokens (some "0xT") 0 "0xh").1 = true ∧
    (activity9_burn_tokens (some "0xT") 0 "0xh").1 ≠ PyResult.noneVal :=
  (burn_threshold_policy "0xT" 0 "0xh").1 (by norm_num [burnThreshold])

/-- C5: the remove-liquidity activity only ever selects a pool whose
queried LP balance is positive; whenever a withdrawal transaction is
submitted the withdrawn amount w satisfies
minWithdraw ≤ w ≤ lpBalance of the selected pool; and when no pair
has a positive position the activity returns the skip sentinel with
no selection and no transaction. -/
theorem remove_liquidity_bounds (queries : List (Option Nat)) (pick raw : Nat)
    (txh : String) :
    (∀ lp, (activity12_remove_liquidity queries pick raw txh).selected = some lp →
       0 < lp) ∧
    (∀ lp w, (activity12_remove_liquidity queries pick raw txh).selected = some lp →
       (activity12_remove_liquidity queries pick raw txh).submitted = some w →
       minWithdraw ≤ w ∧ w ≤ lp) ∧
    ((queries.filterMap id).filter (fun lp => 0 < lp) = [] →
       activity12_remove_liquidity queries pick raw txh
         = ⟨.skippedMsg "skipped: no lp", none, none⟩) := by
  simp only [activity12_remove_liquidity]
  generalize hP : (queries.filterMap id).filter (fun lp => 0 < lp) = pools
  by_cases hemp : pools.isEmpty = true
  · simp only [if_pos hemp]
    exact ⟨fun lp hsel => Option.noConfusion hsel,
           fun lp w hsel _ => Option.noConfusion hsel,
           fun _ => trivial⟩
  · have hne : pools ≠ [] := by
      intro hc
      rw [hc] at hemp
      exact hemp rfl
    simp only [if_neg hemp]
    have hlen : 0 < pools.length := List.length_pos.mpr hne
    have hidx : pick % pools.length < pools.length := Nat.mod_lt pick hlen
    have hmem : pools.getD (pick % pools.length) 0 ∈ pools := by
      rw [List.getD_eq_getElem pools 0 hidx]
      exact List.getElem_mem hidx
    have hposAll : ∀ y ∈ pools, 0 < y := by
      intro y hy
      rw [← hP] at hy
      simpa using List.of_mem_filter hy
    have hpos : 0 < pools.getD (pick % pools.length) 0 := hposAll _ hmem
    refine ⟨?_, ?_, fun hc => absurd hc hne⟩
    · intro lp hsel
      by_cases hlow : pools.getD (pick % pools.length) 0 < minWithdraw
      · rw [if_pos hlow] at hsel
        exact (Option.some.inj hsel) ▸ hpos
      · rw [if_neg hlow] at hsel
        exact (Option.some.inj hsel) ▸ hpos
    · intro lp w hsel hsub
      by_cases hlow : pools.getD (pick % pools.length) 0 < minWithdraw
      · rw [if_pos hlow] at hsub
        exact Option.noConfusion hsub
      · rw [if_neg hlow] at hsel hsub
        have h1 : pools.getD (pick % pools.length) 0 = lp := Option.some.inj hsel
        have h2 : min (max raw minWithdraw) (pools.getD (pick % pools.length) 0) = w :=
          Option.some.inj hsub
        subst h1
        subst h2
        exact ⟨le_min (le_max_right _ _) (Nat.not_lt.mp hlow), min_le_right _ _⟩

/-- Witness for the remove-liquidity bounds at a single pool holding
200000 LP units with raw draw 0: the clamped withdrawal is 100000. -/
theorem remove_liquidity_bounds_witness :
    minWithdraw ≤ 100000 ∧ (100000 : Nat) ≤ 200000 :=
  (remove_liquidity_bounds [some 200000] 0 0 "0xh").2.1 200000 100000 rfl rfl

/-- C6 counterexample: with every attempt failing transiently, the
faucet activity performs backoff sleeps of 5 and 10 seconds only; no
15-second backoff ever occurs, refuting the claimed 5s/10s/15s
schedule of three backoffs. -/
theorem faucet_backoff_counterexample :
    activity2_faucet (fun _ => FaucetStep.transientErr) = (none, [5, 10]) ∧
    15 ∉ (activity2_faucet (fun _ => FaucetStep.transientErr)).2 := by
  constructor
  · rfl
  · decide

/-- C6 amended: the faucet activity makes up to 3 total attempts,
sleeping 5 seconds before the second attempt and 10 seconds before
the third; a non-transient error aborts immediately with no further
attempt and no sleep, and a failure on the final attempt returns
immediately with no further sleep. -/
theorem activity2_faucet_retry_policy (oracle : Nat → FaucetStep) :
    (oracle 0 = .terminalErr → activity2_faucet oracle = (none, [])) ∧
    (oracle 0 = .ok → activity2_faucet oracle = (some "faucet", [])) ∧
    (oracle 0 = .transientErr → oracle 1 = .ok →
       activity2_faucet oracle = (some "faucet", [5])) ∧
    (oracle 0 = .transientErr → oracle 1 = .terminalErr →
       activity2_faucet oracle = (none, [5])) ∧
    (oracle 0 = .transientErr → oracle 1 = .transientErr → oracle 2 = .ok →
       activity2_faucet oracle = (some "faucet", [5, 10])) ∧
    (oracle 0 = .transientErr → oracle 1 = .transientErr → oracle 2 ≠ .ok →
       activity2_faucet oracle = (none, [5, 10])) := by
  refine ⟨?_, ?_, ?_, ?_, ?_, ?_⟩
  · intro h0
    simp [activity2_faucet, faucetLoop, h0]
  · intro h0
    simp [activity2_faucet, faucetLoop, h0]
  · intro h0 h1
    simp [activity2_faucet, faucetLoop, faucetMaxRetries, h0, h1]
  · intro h0 h1
    simp [activity2_faucet, faucetLoop, faucetMaxRetries, h0, h1]
  · intro h0 h1 h2
    simp [activity2_faucet, faucetLoop, faucetMaxRetries, h0, h1, h2]
  · intro h0 h1 h2
    cases h2v : oracle 2 with
    | ok => exact absurd h2v h2
    | transientErr =>
        simp [activity2_faucet, faucetLoop, faucetMaxRetries, h0, h1, h2v]
    | terminalErr =>
        simp [activity2_faucet, faucetLoop, faucetMaxRetries, h0, h1, h2v]

/-- Witness for the faucet retry policy: an immediately terminal
error aborts with no sleep. -/
theorem activity2_faucet_retry_policy_witness :
    activity2_faucet (fun _ => FaucetStep.terminalErr) = (none, []) :=
  (activity2_faucet_retry_policy (fun _ => FaucetStep.terminalErr)).1 rfl

/-- C7 counterexample: at quote 0 with ample allowance the swap
activity returns Python None, which is not a skip sentinel and is
exactly the value the failure path returns. -/
theorem swap_zero_quote_counterexample :
    (activity5_swap (10 ^ 7) 0 "0xh").1 = PyResult.noneVal ∧
    isSkipped (activity5_swap (10 ^ 7) 0 "0xh").1 = false ∧
    (activity5_swap (10 ^ 7) 0 "0xh").1 = activity5_onError :=
  ⟨rfl, rfl, rfl⟩

/-- C7 amended: at quote 0 the swap activity submits no swap
transaction, and its result is Python None — the same value as the
failure outcome, not a distinct skip sentinel. -/
theorem swap_zero_quote_no_trade (allowance : Nat) (txh : String) :
    (activity5_swap allowance 0 txh).1 = PyResult.noneVal ∧
    (activity5_swap allowance 0 txh).1 = activity5_onError ∧
    isSkipped (activity5_swap allowance 0 txh).1 = false ∧
    swapTxCount (activity5_swap allowance 0 txh).2 = 0 := by
  by_cases ha : allowance < 1 * 10 ^ 6 <;>
    simp [activity5_swap, activity5_onError, isSkipped, swapTxCount, ha] <;>
    rintro a - (rfl | rfl) <;> rfl

/-- Wallet state holding 20 PathUSD, 1 AlphaUSD, 1 BetaUSD and only
1 ETH, with the recovery flag clear. -/
def lowEthSwapState : AgentState := ⟨false, ⟨1, 20, 1, 1⟩, [], []⟩

/-- C9 counterexample: a wallet holding 20 PathUSD, 1 AlphaUSD and
1 BetaUSD but only 1 ETH selects the faucet claim, not the swap: the
ETH rule precedes the swap rule. -/
theorem swap_rule_counterexample :
    (decide_next_action lowEthSwapState id demoDraws).chosen
      = ⟨"Faucet Claim (Low Balance)", ActivityFn.faucet⟩ ∧
    (decide_next_action lowEthSwapState id demoDraws).chosen
      ≠ ⟨"Swap PathUSD -> Stable", ActivityFn.swap⟩ := by
  constructor
  · rfl
  · decide

/-- C9 amended: with the recovery flag clear, refreshed balances of
20 PathUSD, 1 AlphaUSD and 1 BetaUSD, an ETH balance of at least 2.0
and the 15-percent create-token random gate not firing, the decision
engine selects the swap activity (the swap predicate 20 > 10 and a
peer asset below 5 holds). -/
theorem swap_rule_fires (s : AgentState) (b : Balances)
    (refresh : Balances → Balances) (r : RandDraws)
    (hflag : s.shouldRecoverFaucet = false)
    (hb : refresh s.balances = b)
    (heth : ¬ b.eth < 2)
    (hpath : b.pathUSD = 20)
    (halpha : b.alphaUSD = 1)
    (hbeta : b.betaUSD = 1)
    (hcreate : ¬ r.rCreate < 15 / 100) :
    (decide_next_action s refresh r).chosen = ⟨"Swap PathUSD -> Stable", .swap⟩ := by
  have hswap : b.pathUSD > 10 ∧ (b.alphaUSD < 5 ∨ b.betaUSD < 5) := by
    rw [hpath, halpha]
    exact ⟨by norm_num, Or.inl (by norm_num)⟩
  simp [decide_next_action, hflag, hb, heth, hcreate, hswap]

/-- Wallet state holding 20 PathUSD, 1 AlphaUSD, 1 BetaUSD and 5
ETH, with the recovery flag clear. -/
def readySwapState : AgentState := ⟨false, ⟨5, 20, 1, 1⟩, [], []⟩

/-- Witness for the amended swap-rule theorem at a concrete state. -/
theorem swap_rule_fires_witness :
    (decide_next_action readySwapState id demoDraws).chosen
      = ⟨"Swap PathUSD -> Stable", .swap⟩ :=
  swap_rule_fires readySwapState ⟨5, 20, 1, 1⟩ id demoDraws rfl rfl
    (show ¬ (5 : ℚ) < 2 by norm_num) rfl rfl rfl
    (show ¬ (1 : ℚ) < 15 / 100 by norm_num)

/-- C1: evaluation of the create-token step of the per-wallet sweep.
The activity itself returns None exactly when no receipt log decodes
as a TokenCreated event, and the token address when one does; but
the await of its non-awaitable return raises TypeError on every
execution, so the caller never reaches the if/else: the bonus
mint/burn/grant-role sequence is invoked neither when creation
returned null (the claim's first half, which holds only because the
whole handler is unreachable) nor when a token address was recovered
(contradicting the claim's converse that the bonus sequence operates
on that address), and created_token keeps its None initializer in
both cases. -/
theorem sweep_bonus_divergence :
    activity4_create_stablecoin [] = none ∧
    sweepCreateToken []
      = { activityReturn := none, createdToken := none,
          bonusInvoked := false, raisedTypeError := true } ∧
    activity4_create_stablecoin [some "0xT"] = some "0xT" ∧
    sweepCreateToken [some "0xT"]
      = { activityReturn := some "0xT", createdToken := none,
          bonusInvoked := false, raisedTypeError := true } :=
  ⟨rfl, rfl, rfl, rfl⟩
